import Mathlib

/-!
Shallow embedding of `internal/server/server.go` from the
tonutils-liteserver-proxy repository, together with proofs about the
request-admission front-end (`handleRequest`), the query dispatcher and its
per-query handlers, and the library-discovery walk (`findLibs`).

External collaborators (the block/state cache, the TVM emulator, the account
parser, the proof builder and the backend pool) are modelled as an explicit
environment of functions; the dispatcher code itself is translated line by
line from the source.  Byte payloads whose contents the dispatcher never
inspects are modelled as opaque handles.
-/

namespace Liteproxy

/-- `ton.LSError{Code, Text}` — the protocol's typed error reply. -/
structure LSError where
  code : Int
  text : String
deriving DecidableEq, Repr

/-- Hit-class constants, verbatim from the source. -/
def HitTypeEmulated : String := "emulated"

def HitTypeBackend : String := "backend"

def HitTypeCache : String := "cache"

def HitTypeFailedValidate : String := "failed_validate"

def HitTypeFailedInternal : String := "failed_internal"

/-- External constant `ton.ErrCodeContractNotInitialized`; its numeric value
lives in the ton library, outside this repository, and no property here
depends on it, so it is modelled as a distinguished code. -/
def ErrCodeContractNotInitialized : Int := 128

/-- Byte/bit payloads are modelled as bit lists (a 32-byte hash is 256 bits). -/
abbrev Bytes := List Bool

/-! ## Cells

`cell.Cell` is a bit string plus an ordered list of references and a cell
type.  The mutual inductive keeps the recursion over references structural. -/

inductive CellType where
  | ordinary
  | library
  | prunedBranch
  | merkleProof
  | merkleUpdate
deriving DecidableEq, Repr

mutual
inductive Cell where
  | mk (ctype : CellType) (bits : List Bool) (refs : CellList)

inductive CellList where
  | nil
  | cons (c : Cell) (cs : CellList)
end

def Cell.ctype : Cell → CellType
  | .mk t _ _ => t

def Cell.bits : Cell → List Bool
  | .mk _ d _ => d

def Cell.refs : Cell → CellList
  | .mk _ _ r => r

def CellList.length : CellList → Nat
  | .nil => 0
  | .cons _ cs => cs.length + 1

/-- `cell.RefsNum()`. -/
def Cell.refsNum (c : Cell) : Nat := c.refs.length

/-! ## `findLibs` — the library-discovery walk (source lines 583-594)

On a cell with no references whose type is `library`, the source skips an
8-bit prefix tag (`MustLoadSlice(8)`) and returns the next 256 bits
(`MustLoadSlice(256)`); otherwise it walks every reference in order and
appends the results. -/

mutual
def findLibs : Cell → List Bytes
  | .mk t d refs =>
    if refs.length = 0 ∧ t = CellType.library then
      [(d.drop 8).take 256]
    else
      findLibsList refs

def findLibsList : CellList → List Bytes
  | .nil => []
  | .cons c cs => findLibs c ++ findLibsList cs
end

mutual
/-- Modelled from the spec: "the code-cell traversal is a depth-first walk
that recognizes the library cell type by a library-type tag; on such cells
the first byte is a prefix tag, the next 256 bits are the library hash.
Ordinary cells contribute their references recursively; data bits on
non-library cells are ignored."  This definition follows those words (it
branches on the cell type alone), to be compared with `findLibs` above. -/
def specLibWalk : Cell → List Bytes
  | .mk t d refs =>
    if t = CellType.library then
      [(d.drop 8).take 256]
    else
      specLibWalkList refs

def specLibWalkList : CellList → List Bytes
  | .nil => []
  | .cons c cs => specLibWalk c ++ specLibWalkList cs
end

mutual
/-- Well-formedness of a cell tree: every reachable library-typed cell is a
leaf (carries no references).  Valid TON library cells are exotic cells of
exactly 8+256 data bits and zero references. -/
def libRefsOK : Cell → Bool
  | .mk t _ refs =>
    (if t = CellType.library then refs.length = 0 else true) && libRefsOKList refs

def libRefsOKList : CellList → Bool
  | .nil => true
  | .cons c cs => libRefsOK c && libRefsOKList cs
end

/-! ## Wire-level data types used by the dispatcher -/

/-- `ton.BlockIDExt`. -/
structure BlockIDExt where
  workchain : Int
  shard : Int
  seqno : Nat
  rootHash : Bytes
  fileHash : Bytes
deriving DecidableEq, Repr

/-- `ton.AccountID{Workchain, ID}`. -/
structure AccountID where
  workchain : Int
  id : Bytes
deriving DecidableEq, Repr

/-- `address.Address` as built by `address.NewAddress(flags, workchain, data)`.
The dispatcher only constructs addresses and passes them on. -/
structure Address where
  flags : Nat
  workchain : Nat
  id : Bytes
deriving DecidableEq, Repr

def newAddress (flags workchain : Nat) (id : Bytes) : Address :=
  ⟨flags, workchain, id⟩

/-- `byte(w)` for an `int32` workchain: truncation to the low 8 bits. -/
def byteOf (w : Int) : Nat := (w % 256).toNat

/-- `int32(x)` for an `int64` method id: two's-complement truncation. -/
def int32of (x : Int) : Int := (x + 2 ^ 31) % 2 ^ 32 - 2 ^ 31

/-- `*MasterBlock` from the cache: the fields the dispatcher reads. -/
structure MasterBlock where
  id : BlockIDExt
  genTime : Nat
  stateHash : Bytes
  config : Nat
deriving Repr

/-- `ton.AccountState`: the fields the dispatcher reads (`Shard`,
`ShardProof`, `Proof`, `State`; `State` is a nullable cell). -/
structure AccountState where
  shard : BlockIDExt
  shardProof : Bytes
  proof : Bytes
  state : Option Cell

/-- `tlb.AccountState` after `LoadFromCell`: the StateInit code/data cells
and the balance in nanotons. -/
structure ParsedAccount where
  code : Cell
  data : Cell
  balance : Int

/-- Opaque handles for payloads the dispatcher forwards without looking. -/
abbrev BlockData := Nat

abbrev TransactionInfo := Nat

abbrev LibDict := Nat

abbrev ZeroState := Nat

abbrev StackData := Nat

/-- One `(hash, value)` pair of the loaded library dictionary. -/
structure LibKV where
  key : Bytes
  value : Cell

/-- `ton.LibraryEntry{Hash, Data}`. -/
structure LibraryEntry where
  hash : Bytes
  data : Cell

/-- `emulate.RunMethodParams` (the `Time` field carries the wall clock). -/
structure RunMethodParams where
  code : Cell
  data : Cell
  address : Address
  stack : StackData
  balance : Int
  libs : LibDict
  config : Nat
  time : Nat

/-- The emulator's output: `{ExitCode, Stack}`. -/
structure EmulatorResult where
  exitCode : Int
  stack : StackData

/-- `ton.RunMethodResult`. -/
structure RunMethodResult where
  mode : Nat
  id : BlockIDExt
  shardBlock : BlockIDExt
  shardProof : Bytes
  proof : Bytes
  stateProof : Option Cell
  initC7 : Option Cell
  libExtras : Option Bytes
  exitCode : Int
  result : StackData

/-- `ton.MasterchainInfoExt`. -/
structure MasterchainInfoExt where
  mode : Nat
  version : Nat
  capabilities : Nat
  last : BlockIDExt
  lastUTime : Nat
  now : Nat
  stateRootHash : Bytes
  init : ZeroState

/-- `ton.MasterchainInfo`. -/
structure MasterchainInfo where
  last : BlockIDExt
  stateRootHash : Bytes
  init : ZeroState

/-! ## Queries and responses -/

structure GetMasterchainInfoExtQ where
  mode : Nat
deriving DecidableEq, Repr

structure GetBlockDataQ where
  id : BlockIDExt
deriving DecidableEq, Repr

structure GetOneTransactionQ where
  id : BlockIDExt
  accID : AccountID
  lt : Int
deriving DecidableEq, Repr

structure GetLibrariesQ where
  libraryList : List Bytes
deriving DecidableEq, Repr

structure GetAccountStateQ where
  id : BlockIDExt
  account : AccountID
deriving DecidableEq, Repr

structure RunSmcMethodQ where
  mode : Nat
  id : BlockIDExt
  account : AccountID
  methodID : Int
  params : StackData
deriving DecidableEq, Repr

/-- The inner `LiteServerQuery` payload, one arm per type the dispatcher
switches on; `passthrough` stands for every query type that falls through to
the opaque proxy (`GetConfigAll`, `GetBlockProof`, `GetConfigParams`,
`GetBlockHeader`, `LookupBlock`, `GetAllShardsInfo`, `ListBlockTransactions`,
`ListBlockTransactionsExt`, and anything else). -/
inductive Query where
  | getVersion
  | getTime
  | getMasterchainInfoExt (v : GetMasterchainInfoExtQ)
  | getMasterchainInfo
  | getLibraries (v : GetLibrariesQ)
  | getOneTransaction (v : GetOneTransactionQ)
  | getBlockData (v : GetBlockDataQ)
  | getAccountState (v : GetAccountStateQ)
  | runSmcMethod (v : RunSmcMethodQ)
  | passthrough (tag : String)

/-- A `tl.Serializable` response as sent to the client. -/
inductive TLObject where
  | lsError (e : LSError)
  | version (mode versionNo capabilities now : Nat)
  | currentTime (now : Nat)
  | masterchainInfoExt (m : MasterchainInfoExt)
  | masterchainInfo (m : MasterchainInfo)
  | libraryResult (entries : List LibraryEntry)
  | transactionInfo (t : TransactionInfo)
  | blockData (b : BlockData)
  | accountState (s : AccountState)
  | runMethodResult (r : RunMethodResult)
  | backendResponse (n : Nat)

/-- Errors surfaced by a cache resolution: either a typed `ton.LSError`
(type-asserted by the handlers) or any other error. -/
inductive CacheErr where
  | ls (e : LSError)
  | other (msg : String)

/-- Errors surfaced by the backend pool: either a typed `ton.LSError` or a
transport/timeout error. -/
inductive BackendErr where
  | ls (e : LSError)
  | other (msg : String)

/-- Observable downstream activity of a request: one event per cache
resolution, emulator run, or backend query.  A rejected request must have an
empty trace. -/
inductive Event where
  | getMasterBlock
  | getLastMasterBlock
  | getZeroState
  | getBlock
  | getTransaction
  | getLibraries
  | getAccountState
  | emulate
  | backendQuery
deriving DecidableEq, Repr

/-- The dispatcher's external collaborators: the block/state cache (each call
returns `(value, was_cached)` or an error), the account parser, the TVM
emulator, the proof builder, the backend pool and the wall clock.  Each
request sees one fixed environment (its snapshot of the outside world). -/
structure Env where
  getMasterBlock : BlockIDExt → Except CacheErr (MasterBlock × Bool)
  getLastMasterBlock : Except CacheErr (MasterBlock × Bool)
  getBlock : BlockIDExt → Except CacheErr (BlockData × Bool)
  getAccountState : MasterBlock → Address → Except CacheErr (AccountState × Bool)
  getTransaction : BlockIDExt → AccountID → Int → Except CacheErr (TransactionInfo × Bool)
  getLibraries : List Bytes → Except CacheErr (LibDict × Bool)
  getZeroState : Except String ZeroState
  loadAll : LibDict → Except String (List LibKV)
  parseAccount : Cell → Except String ParsedAccount
  runGetMethod : Int → RunMethodParams → Bool → Nat → Except String EmulatorResult
  createProof : Cell → Except String Cell
  backend : Query → Except BackendErr TLObject
  now : Nat

/-! ## Per-query handlers (source lines 263-581)

Each handler returns the response, the hit-class label, and the trace of
downstream events, in the order the source performs them. -/

/-- `handleRunSmcMethod` (source lines 263-384), translated step by step:
master block, account state, nil-state check, account parse, library
resolution, emulation, then the `mode&8` rejection, the optional state
proof, hit classification and the assembled `RunMethodResult`.  The `c7`
variable is declared and never assigned in the source, so `initC7` is always
`none`. -/
def handleRunSmcMethod (env : Env) (v : RunSmcMethodQ) : TLObject × String × List Event :=
  match env.getMasterBlock v.id with
  | .error (.ls e) => (.lsError e, HitTypeFailedValidate, [.getMasterBlock])
  | .error (.other _) =>
      (.lsError ⟨500, "failed to resolve master block"⟩, HitTypeFailedInternal, [.getMasterBlock])
  | .ok (block, cachedMaster) =>
    let addr := newAddress 0 (byteOf v.account.workchain) v.account.id
    match env.getAccountState block addr with
    | .error (.ls e) => (.lsError e, HitTypeFailedValidate, [.getMasterBlock, .getAccountState])
    | .error (.other _) =>
        (.lsError ⟨500, "failed to get account state"⟩, HitTypeFailedInternal,
          [.getMasterBlock, .getAccountState])
    | .ok (state, cachedState) =>
      match state.state with
      | none =>
          (.lsError ⟨ErrCodeContractNotInitialized, "contract is not initialized"⟩,
            HitTypeFailedValidate, [.getMasterBlock, .getAccountState])
      | some stateCell =>
        match env.parseAccount stateCell with
        | .error msg =>
            (.lsError ⟨500, "failed to parse account state: " ++ msg⟩, HitTypeFailedInternal,
              [.getMasterBlock, .getAccountState])
        | .ok st =>
          match env.getLibraries (findLibs st.code) with
          | .error (.ls e) =>
              (.lsError e, HitTypeFailedValidate,
                [.getMasterBlock, .getAccountState, .getLibraries])
          | .error (.other msg) =>
              (.lsError ⟨500, "failed resolve libraries: " ++ msg⟩, HitTypeFailedInternal,
                [.getMasterBlock, .getAccountState, .getLibraries])
          | .ok (libsCodes, cachedLibs) =>
            match env.runGetMethod (int32of v.methodID)
                { code := st.code, data := st.data, address := addr, stack := v.params,
                  balance := st.balance, libs := libsCodes, config := block.config,
                  time := env.now } false 1000000 with
            | .error msg =>
                (.lsError ⟨500, "failed to emulate run method: " ++ msg⟩, HitTypeFailedInternal,
                  [.getMasterBlock, .getAccountState, .getLibraries, .emulate])
            | .ok res =>
              if v.mode &&& 8 ≠ 0 then
                (.lsError ⟨403, "c7 return is currently not supported"⟩,
                  HitTypeFailedValidate ++ "_want_c7",
                  [.getMasterBlock, .getAccountState, .getLibraries, .emulate])
              else
                let proofStep : Except String (Option Cell) :=
                  if v.mode &&& 2 ≠ 0 then (env.createProof stateCell).map some
                  else .ok none
                match proofStep with
                | .error _ =>
                    (.lsError ⟨500, "failed to prepare state proof args"⟩, HitTypeFailedInternal,
                      [.getMasterBlock, .getAccountState, .getLibraries, .emulate])
                | .ok stateProof =>
                  let hit :=
                    if cachedMaster && cachedLibs then
                      if cachedState then HitTypeCache else HitTypeEmulated
                    else HitTypeBackend
                  (.runMethodResult
                      { mode := v.mode, id := v.id, shardBlock := state.shard,
                        shardProof := state.shardProof, proof := state.proof,
                        stateProof := stateProof, initC7 := none, libExtras := none,
                        exitCode := res.exitCode, result := res.stack },
                    hit, [.getMasterBlock, .getAccountState, .getLibraries, .emulate])

/-- `handleGetMasterchainInfoExt` (source lines 386-432).  Note: an
`LSError` from `GetLastMasterBlock` is forwarded with hit class
`failed_internal` here, unlike the other handlers. -/
def handleGetMasterchainInfoExt (env : Env) (v : GetMasterchainInfoExtQ) :
    TLObject × String × List Event :=
  if v.mode ≠ 0 then
    (.lsError ⟨400, "non zero mode is not supported"⟩, HitTypeFailedValidate, [])
  else
    match env.getLastMasterBlock with
    | .error (.ls e) => (.lsError e, HitTypeFailedInternal, [.getLastMasterBlock])
    | .error (.other _) =>
        (.lsError ⟨500, "failed to resolve master block"⟩, HitTypeFailedInternal,
          [.getLastMasterBlock])
    | .ok (block, cached) =>
      match env.getZeroState with
      | .error _ =>
          (.lsError ⟨500, "failed to resolve zero state"⟩, HitTypeFailedInternal,
            [.getLastMasterBlock, .getZeroState])
      | .ok zs =>
          (.masterchainInfoExt
              { mode := v.mode, version := 0x101, capabilities := 7, last := block.id,
                lastUTime := block.genTime, now := env.now,
                stateRootHash := block.stateHash, init := zs },
            if cached then HitTypeCache else HitTypeBackend,
            [.getLastMasterBlock, .getZeroState])

/-- `handleGetMasterchainInfo` (source lines 434-467); same
`failed_internal` classification of a forwarded `LSError`. -/
def handleGetMasterchainInfo (env : Env) : TLObject × String × List Event :=
  match env.getLastMasterBlock with
  | .error (.ls e) => (.lsError e, HitTypeFailedInternal, [.getLastMasterBlock])
  | .error (.other _) =>
      (.lsError ⟨500, "failed to resolve master block"⟩, HitTypeFailedInternal,
        [.getLastMasterBlock])
  | .ok (block, cached) =>
    match env.getZeroState with
    | .error _ =>
        (.lsError ⟨500, "failed to resolve zero state"⟩, HitTypeFailedInternal,
          [.getLastMasterBlock, .getZeroState])
    | .ok zs =>
        (.masterchainInfo
            { last := block.id, stateRootHash := block.stateHash, init := zs },
          if cached then HitTypeCache else HitTypeBackend,
          [.getLastMasterBlock, .getZeroState])

/-- `handleGetLibraries` (source lines 469-508). -/
def handleGetLibraries (env : Env) (v : GetLibrariesQ) : TLObject × String × List Event :=
  match env.getLibraries v.libraryList with
  | .error (.ls e) => (.lsError e, HitTypeFailedValidate, [.getLibraries])
  | .error (.other _) =>
      (.lsError ⟨500, "failed to get libraries"⟩, HitTypeFailedInternal, [.getLibraries])
  | .ok (libs, cached) =>
    match env.loadAll libs with
    | .error _ =>
        (.lsError ⟨500, "failed to load libraries"⟩, HitTypeFailedInternal, [.getLibraries])
    | .ok all =>
        (.libraryResult (all.map fun kv => ⟨kv.key, kv.value⟩),
          if cached then HitTypeCache else HitTypeBackend, [.getLibraries])

/-- `handleGetBlock` (source lines 510-528). -/
def handleGetBlock (env : Env) (v : GetBlockDataQ) : TLObject × String × List Event :=
  match env.getBlock v.id with
  | .error (.ls e) => (.lsError e, HitTypeFailedValidate, [.getBlock])
  | .error (.other _) =>
      (.lsError ⟨500, "failed to get block"⟩, HitTypeFailedInternal, [.getBlock])
  | .ok (data, cached) =>
      (.blockData data, if cached then HitTypeCache else HitTypeBackend, [.getBlock])

/-- `handleGetTransaction` (source lines 530-548).  Note: the cached branch
returns `HitTypeEmulated` in the source. -/
def handleGetTransaction (env : Env) (v : GetOneTransactionQ) : TLObject × String × List Event :=
  match env.getTransaction v.id v.accID v.lt with
  | .error (.ls e) => (.lsError e, HitTypeFailedValidate, [.getTransaction])
  | .error (.other _) =>
      (.lsError ⟨500, "failed to get transaction"⟩, HitTypeFailedInternal, [.getTransaction])
  | .ok (data, cached) =>
      (.transactionInfo data, if cached then HitTypeEmulated else HitTypeBackend,
        [.getTransaction])

/-- `handleGetAccount` (source lines 550-581). -/
def handleGetAccount (env : Env) (v : GetAccountStateQ) : TLObject × String × List Event :=
  match env.getMasterBlock v.id with
  | .error (.ls e) => (.lsError e, HitTypeFailedValidate, [.getMasterBlock])
  | .error (.other _) =>
      (.lsError ⟨500, "failed to resolve master block"⟩, HitTypeFailedInternal,
        [.getMasterBlock])
  | .ok (block, cachedBlock) =>
    match env.getAccountState block (newAddress 0 (byteOf v.account.workchain) v.account.id) with
    | .error (.ls e) =>
        (.lsError e, HitTypeFailedValidate, [.getMasterBlock, .getAccountState])
    | .error (.other _) =>
        (.lsError ⟨500, "failed to get account state"⟩, HitTypeFailedInternal,
          [.getMasterBlock, .getAccountState])
    | .ok (state, cachedState) =>
        (.accountState state,
          if cachedState && cachedBlock then HitTypeCache else HitTypeBackend,
          [.getMasterBlock, .getAccountState])

/-- The dispatcher body of the per-query task (source lines 142-252), minus
the compound wait-masterchain unwrapping, which happens before dispatch and
is orthogonal to the properties proved here.  When `onlyProxy` is set or the
query is not one of the handled types, `resp` stays nil and the query is
forwarded to the backend with the source's error mapping: a backend
`LSError` verbatim, any other backend error as `LSError{502}`. -/
def dispatch (env : Env) (onlyProxy : Bool) (q : Query) : TLObject × String × List Event :=
  let handled : Option (TLObject × String × List Event) :=
    if onlyProxy then none
    else
      match q with
      | .getVersion => some (.version 0 0x101 7 env.now, HitTypeEmulated, [])
      | .getTime => some (.currentTime env.now, HitTypeEmulated, [])
      | .getMasterchainInfoExt v => some (handleGetMasterchainInfoExt env v)
      | .getMasterchainInfo => some (handleGetMasterchainInfo env)
      | .getLibraries v => some (handleGetLibraries env v)
      | .getOneTransaction v => some (handleGetTransaction env v)
      | .getBlockData v => some (handleGetBlock env v)
      | .getAccountState v => some (handleGetAccount env v)
      | .runSmcMethod v => some (handleRunSmcMethod env v)
      | .passthrough _ => none
  match handled with
  | some r => r
  | none =>
    match env.backend q with
    | .ok v => (v, HitTypeBackend, [.backendQuery])
    | .error (.ls e) => (.lsError e, HitTypeBackend, [.backendQuery])
    | .error (.other _) =>
        (.lsError ⟨502, "backend node timeout"⟩, HitTypeBackend, [.backendQuery])

/-! ## Session front-end (source lines 105-261)

The leaky buckets of `kevinms/leakybucket-go` are modelled by their fill
level at the moment of the request (the time-based leak is folded into the
level).  `Add` grants up to the remaining capacity and returns the granted
amount; the handler treats anything short of the full cost as a refusal. -/

/-- `LeakyBucket.Add` on a bucket with the given capacity and current fill
level: returns `(granted, new_level)`.  A full bucket grants 0; otherwise
the grant is capped at the remaining capacity. -/
def bucketTryAdd (capacity level amount : Int) : Int × Int :=
  if capacity ≤ level then (0, level)
  else
    let remaining := capacity - level
    let amt := if remaining < amount then remaining else amount
    (amt, level + amt)

/-- A per-key leaky bucket. -/
structure LeakyBucket where
  capacity : Int
  level : Int
deriving DecidableEq, Repr

def LeakyBucket.add (b : LeakyBucket) (amount : Int) : Int × LeakyBucket :=
  let r := bucketTryAdd b.capacity b.level amount
  (r.fst, { b with level := r.snd })

/-- The per-IP bucket collector: one bucket per remote IP, created at first
use with level 0. -/
structure Collector where
  capacity : Int
  levels : List (String × Int)
deriving DecidableEq, Repr

def Collector.levelOf (c : Collector) (ip : String) : Int :=
  (c.levels.lookup ip).getD 0

def Collector.add (c : Collector) (ip : String) (amount : Int) : Int × Collector :=
  let r := bucketTryAdd c.capacity (c.levelOf ip) amount
  (r.fst, { c with levels := (ip, r.snd) :: c.levels.filter (fun p => p.fst != ip) })

/-- `KeyConfig`: the tenant name and its two optional limiters. -/
structure KeyConfig where
  name : String
  limiterPerIP : Option Collector
  limiterPerKey : Option LeakyBucket

/-- `configs map[string]*KeyConfig`, keyed by the server public key. -/
abbrev Configs := String → Option KeyConfig

def setConfig (cfgs : Configs) (k : String) (c : KeyConfig) : Configs :=
  fun x => if x = k then some c else cfgs x

/-- `lim.limiterPerIP != nil && lim.limiterPerIP.Add(sc.IP(), cost) != cost`:
returns whether the request passes, together with the key config carrying
the debited collector (a nil limiter passes untouched). -/
def perIPCheck (lim : KeyConfig) (ip : String) (cost : Int) : Bool × KeyConfig :=
  match lim.limiterPerIP with
  | none => (true, lim)
  | some col =>
    let r := col.add ip cost
    (r.fst = cost, { lim with limiterPerIP := some r.snd })

/-- `lim.limiterPerKey != nil && lim.limiterPerKey.Add(cost) != cost`. -/
def perKeyCheck (lim : KeyConfig) (cost : Int) : Bool × KeyConfig :=
  match lim.limiterPerKey with
  | none => (true, lim)
  | some b =>
    let r := b.add cost
    (r.fst = cost, { lim with limiterPerKey := some r.snd })

/-- Outcome of the admission phase of `handleRequest`: either an immediate
answer (no task spawned) or the spawning of the per-query dispatcher task. -/
inductive AdmitResult where
  | reject (e : LSError)
  | accepted
deriving DecidableEq, Repr

/-- The admission phase of `handleRequest` for a `LiteServerQuery` (source
lines 116-141): unknown server key → 401 before any limiter is touched;
then the per-IP limiter, then the per-key limiter, each answering 429 on
refusal; only then is the dispatcher task spawned.  Returns the result and
the updated limiter state. -/
def handleLiteQuery (cfgs : Configs) (serverKey ip : String) : AdmitResult × Configs :=
  match cfgs serverKey with
  | none => (.reject ⟨401, "unexpected server key"⟩, cfgs)
  | some lim =>
    let cost : Int := 1
    let ipStep := perIPCheck lim ip cost
    if ipStep.fst = false then
      (.reject ⟨429, "too many requests"⟩, setConfig cfgs serverKey ipStep.snd)
    else
      let keyStep := perKeyCheck ipStep.snd cost
      if keyStep.fst = false then
        (.reject ⟨429, "too many requests"⟩, setConfig cfgs serverKey keyStep.snd)
      else
        (.accepted, setConfig cfgs serverKey keyStep.snd)

/-- The whole per-request pipeline: admission, then (only when admitted) the
dispatcher task run to completion.  Returns the answer sent to the client,
the updated limiter state, and the trace of downstream events — empty
exactly when the request never reached the dispatcher. -/
def processQuery (cfgs : Configs) (serverKey ip : String) (env : Env) (onlyProxy : Bool)
    (q : Query) : TLObject × Configs × List Event :=
  match handleLiteQuery cfgs serverKey ip with
  | (.reject e, cfgs1) => (.lsError e, cfgs1, [])
  | (.accepted, cfgs1) =>
    let r := dispatch env onlyProxy q
    (r.fst, cfgs1, r.snd.snd)

/-! ## Concrete fixtures used by witnesses and counterexamples -/

def wBlockID : BlockIDExt := ⟨-1, 0, 100, [], []⟩

def wBlock : MasterBlock := ⟨wBlockID, 1700000000, [], 5⟩

def wCodeCell : Cell := .mk .ordinary [] .nil

def wDataCell : Cell := .mk .ordinary [true] .nil

def wStateCell : Cell := .mk .ordinary [false] .nil

def wAccState : AccountState := ⟨wBlockID, [true], [false], some wStateCell⟩

def wParsed : ParsedAccount := ⟨wCodeCell, wDataCell, 500⟩

def wEmuRes : EmulatorResult := ⟨0, 5⟩

/-- An environment in which every resolution succeeds and every cache call
reports a hit. -/
def okEnv : Env where
  getMasterBlock := fun _ => .ok (wBlock, true)
  getLastMasterBlock := .ok (wBlock, true)
  getBlock := fun _ => .ok (7, true)
  getAccountState := fun _ _ => .ok (wAccState, true)
  getTransaction := fun _ _ _ => .ok (9, true)
  getLibraries := fun _ => .ok (3, true)
  getZeroState := .ok 1
  loadAll := fun _ => .ok []
  parseAccount := fun _ => .ok wParsed
  runGetMethod := fun _ _ _ _ => .ok wEmuRes
  createProof := fun c => .ok c
  backend := fun _ => .ok (.backendResponse 1)
  now := 1700000042

/-- An environment in which every cache resolution fails with the given
typed `LSError`. -/
def errEnv (e : LSError) : Env :=
  { okEnv with
      getMasterBlock := fun _ => .error (.ls e)
      getLastMasterBlock := .error (.ls e)
      getBlock := fun _ => .error (.ls e)
      getAccountState := fun _ _ => .error (.ls e)
      getTransaction := fun _ _ _ => .error (.ls e)
      getLibraries := fun _ => .error (.ls e) }

/-- `okEnv`, except the account-state resolution fails with the given typed
`LSError` (the master block still resolves). -/
def accErrEnv (e : LSError) : Env :=
  { okEnv with getAccountState := fun _ _ => .error (.ls e) }

/-- `okEnv`, except the library resolution fails with the given typed
`LSError` (master block, account state and parse still succeed). -/
def libErrEnv (e : LSError) : Env :=
  { okEnv with getLibraries := fun _ => .error (.ls e) }

def wAccount : AccountID := ⟨0, [true]⟩

def wRun0 : RunSmcMethodQ := ⟨0, wBlockID, wAccount, 85143, 2⟩

def wRun2 : RunSmcMethodQ := ⟨2, wBlockID, wAccount, 85143, 2⟩

def wRun8 : RunSmcMethodQ := ⟨8, wBlockID, wAccount, 85143, 2⟩

def wTxQ : GetOneTransactionQ := ⟨wBlockID, wAccount, 7⟩

/-- `okEnv`, except the transaction lookup reports a cache miss. -/
def uncachedTxEnv : Env :=
  { okEnv with getTransaction := fun _ _ _ => .ok (9, false) }

def wLibCell : Cell := .mk .library (List.replicate 264 true) .nil

def wTopCell : Cell :=
  .mk .ordinary [true, false] (.cons wLibCell (.cons (.mk .ordinary [true] .nil) .nil))

/-! ## Theorems -/

/-- Helper for the library walk: on every cell tree (and reference list)
whose library-typed cells are leaves, the source walk and the spec walk
agree.  Proved by strong induction on the size of the tree. -/
theorem findLibs_spec_aux (n : Nat) :
    (∀ c : Cell, sizeOf c ≤ n → libRefsOK c = true → findLibs c = specLibWalk c) ∧
    (∀ l : CellList, sizeOf l ≤ n → libRefsOKList l = true →
        findLibsList l = specLibWalkList l) := by
  induction n with
  | zero =>
    constructor
    · intro c hc _
      cases c with
      | mk t d refs => simp_arith at hc
    · intro l hl _
      cases l with
      | nil => rfl
      | cons c cs => simp_arith at hl
  | succ n ih =>
    obtain ⟨ihc, ihl⟩ := ih
    constructor
    · intro c hc hok
      cases c with
      | mk t d refs =>
        by_cases ht : t = CellType.library
        · subst ht
          unfold libRefsOK at hok
          simp at hok
          obtain ⟨hlen, _⟩ := hok
          cases refs with
          | nil => simp [findLibs, specLibWalk, CellList.length]
          | cons r rs => simp [CellList.length] at hlen
        · have hok2 : libRefsOKList refs = true := by
            unfold libRefsOK at hok
            simp [ht] at hok
            exact hok
          have hsz : sizeOf refs ≤ n := by
            have hspec := Cell.mk.sizeOf_spec t d refs
            omega
          simp [findLibs, specLibWalk, ht]
          exact ihl refs hsz hok2
    · intro l hl hok
      cases l with
      | nil => rfl
      | cons c cs =>
        unfold libRefsOKList at hok
        simp at hok
        obtain ⟨hokc, hokcs⟩ := hok
        have hspec := CellList.cons.sizeOf_spec c cs
        have hszc : sizeOf c ≤ n := by omega
        have hszcs : sizeOf cs ≤ n := by omega
        simp [findLibsList, specLibWalkList]
        rw [ihc c hszc hokc, ihl cs hszcs hokcs]

/-- C9: for every code cell (whose library-typed cells are, as in every
valid TON cell tree, reference-free leaves), `findLibs` returns exactly the
256-bit hashes carried by library-type cells reachable from it, collected
depth-first: on a library-type cell it skips an 8-bit prefix tag and reads
the next 256 bits as the hash; on an ordinary cell it recurses into each
reference in order and ignores the cell's own data bits — that is, it
agrees with the walk transcribed from the spec's words. -/
theorem findLibs_matches_spec_walk (c : Cell) (h : libRefsOK c = true) :
    findLibs c = specLibWalk c :=
  (findLibs_spec_aux (sizeOf c)).1 c le_rfl h

set_option maxRecDepth 8000 in
theorem findLibs_matches_spec_walk_witness :
    libRefsOK wTopCell = true ∧ findLibs wTopCell = specLibWalk wTopCell ∧
    findLibs wTopCell = [List.replicate 256 true] :=
  ⟨by decide, findLibs_matches_spec_walk wTopCell (by decide), by decide⟩

/-- C4: the code contradicts the spec's hit-class taxonomy here.  A
`GetOneTransaction` query resolved from cache (`was_cached = true`) is
recorded with hit class `"emulated"`, not `"cache"`, although the handler
performs no emulation; a cache miss is recorded as `"backend"` as the claim
says.  The first conjunct evaluates the handler at the failing input. -/
theorem getTransaction_cached_hit_emulated :
    handleGetTransaction okEnv wTxQ = (.transactionInfo 9, HitTypeEmulated, [.getTransaction]) ∧
    HitTypeEmulated ≠ HitTypeCache ∧
    (handleGetTransaction uncachedTxEnv wTxQ).snd.fst = HitTypeBackend :=
  ⟨rfl, by decide, rfl⟩

/-- C6: a query on a connection whose server key is not among the configured
keys is answered with `LSError{401, "unexpected server key"}`; no limiter
bucket is touched (the limiter state is returned unchanged) and nothing
downstream runs (empty event trace). -/
theorem unknown_server_key_401_no_limiter_change (cfgs : Configs) (k ip : String) (env : Env)
    (op : Bool) (q : Query) (h : cfgs k = none) :
    processQuery cfgs k ip env op q = (.lsError ⟨401, "unexpected server key"⟩, cfgs, []) := by
  simp [processQuery, handleLiteQuery, h]

theorem unknown_server_key_401_no_limiter_change_witness :
    processQuery (fun _ => none) "pk" "ip1" okEnv false .getVersion =
      (.lsError ⟨401, "unexpected server key"⟩, (fun _ => none), []) :=
  unknown_server_key_401_no_limiter_change (fun _ => none) "pk" "ip1" okEnv false .getVersion rfl

/-- C7: for a query routed through Path P (the opaque proxy) — an unhandled
query type, under any `onlyProxy` setting, or any query at all when
`onlyProxy` is set — a backend `LSError` reaches the client unchanged, any
other backend error becomes `LSError{502, "backend node timeout"}`, and a
backend success value is returned verbatim. -/
theorem pathP_forwarding (env : Env) (e : LSError) (msg : String) (v : TLObject)
    (tag : String) (op : Bool) (q : Query) :
    (dispatch { env with backend := fun _ => .error (.ls e) } op (.passthrough tag)).fst
        = .lsError e ∧
    (dispatch { env with backend := fun _ => .error (.other msg) } op (.passthrough tag)).fst
        = .lsError ⟨502, "backend node timeout"⟩ ∧
    (dispatch { env with backend := fun _ => .ok v } op (.passthrough tag)).fst = v ∧
    (dispatch { env with backend := fun _ => .error (.ls e) } true q).fst = .lsError e ∧
    (dispatch { env with backend := fun _ => .ok v } true q).fst = v := by
  cases op <;> simp [dispatch]

/-- C1 (corrected): the `mode & 8` rejection is NOT the handler's first
step.  When the resolution chain succeeds, a query with `mode & 8 ≠ 0` is
rejected with `LSError{403, "c7 return is currently not supported"}` and hit
class `"failed_validate_want_c7"` — but only after the master block, the
account state and the libraries have been resolved and the emulator has
run, as the event trace records. -/
theorem runSmcMethod_mode8_rejected_after_resolution (env : Env) (v : RunSmcMethodQ)
    (block : MasterBlock) (cm : Bool) (state : AccountState) (cs : Bool)
    (stateCell : Cell) (st : ParsedAccount) (libs : LibDict) (cl : Bool)
    (res : EmulatorResult)
    (hm : env.getMasterBlock v.id = .ok (block, cm))
    (ha : env.getAccountState block (newAddress 0 (byteOf v.account.workchain) v.account.id)
            = .ok (state, cs))
    (hst : state.state = some stateCell)
    (hp : env.parseAccount stateCell = .ok st)
    (hl : env.getLibraries (findLibs st.code) = .ok (libs, cl))
    (he : env.runGetMethod (int32of v.methodID)
            { code := st.code, data := st.data,
              address := newAddress 0 (byteOf v.account.workchain) v.account.id,
              stack := v.params, balance := st.balance, libs := libs,
              config := block.config, time := env.now } false 1000000 = .ok res)
    (h8 : v.mode &&& 8 ≠ 0) :
    handleRunSmcMethod env v =
      (.lsError ⟨403, "c7 return is currently not supported"⟩, "failed_validate_want_c7",
        [.getMasterBlock, .getAccountState, .getLibraries, .emulate]) := by
  simp [handleRunSmcMethod, hm, ha, hst, hp, hl, he, h8, HitTypeFailedValidate]

theorem runSmcMethod_mode8_rejected_after_resolution_witness :
    handleRunSmcMethod okEnv wRun8 =
      (.lsError ⟨403, "c7 return is currently not supported"⟩, "failed_validate_want_c7",
        [.getMasterBlock, .getAccountState, .getLibraries, .emulate]) :=
  runSmcMethod_mode8_rejected_after_resolution okEnv wRun8 wBlock true wAccState true
    wStateCell wParsed 3 true wEmuRes rfl rfl rfl rfl rfl rfl (by decide)

/-- C1's counterexample: a `RunSmcMethod` query with `mode = 8` against an
environment in which every resolution succeeds.  The rejection is produced,
but the event trace shows the master block, the account state and the
libraries were resolved and the emulator was invoked first — the trace is
not empty, so the rejection is not the first step.  Moreover, against an
environment whose master-block resolution fails, the client receives that
failure instead of the expected 403. -/
theorem runSmcMethod_mode8_not_first_counterexample :
    wRun8.mode &&& 8 ≠ 0 ∧
    (handleRunSmcMethod okEnv wRun8).snd.snd =
      [Event.getMasterBlock, Event.getAccountState, Event.getLibraries, Event.emulate] ∧
    (handleRunSmcMethod okEnv wRun8).snd.snd ≠ ([] : List Event) ∧
    (handleRunSmcMethod (errEnv ⟨404, "block not found"⟩) wRun8).fst =
      .lsError ⟨404, "block not found"⟩ :=
  ⟨by decide, rfl, by decide, rfl⟩

/-- C2: for a `RunSmcMethod` query that completes successfully, the hit
class is the stated function of the three `was_cached` flags returned by
`GetMasterBlock` (`cm`), `GetAccountState` (`cs`) and `GetLibraries` (`cl`):
`"cache"` iff all three were cached, `"emulated"` iff master and libraries
were cached but the state was not, `"backend"` otherwise. -/
theorem runSmcMethod_hit_classification (env : Env) (v : RunSmcMethodQ)
    (block : MasterBlock) (cm : Bool) (state : AccountState) (cs : Bool)
    (stateCell : Cell) (st : ParsedAccount) (libs : LibDict) (cl : Bool)
    (res : EmulatorResult) (p : Cell)
    (hm : env.getMasterBlock v.id = .ok (block, cm))
    (ha : env.getAccountState block (newAddress 0 (byteOf v.account.workchain) v.account.id)
            = .ok (state, cs))
    (hst : state.state = some stateCell)
    (hp : env.parseAccount stateCell = .ok st)
    (hl : env.getLibraries (findLibs st.code) = .ok (libs, cl))
    (he : env.runGetMethod (int32of v.methodID)
            { code := st.code, data := st.data,
              address := newAddress 0 (byteOf v.account.workchain) v.account.id,
              stack := v.params, balance := st.balance, libs := libs,
              config := block.config, time := env.now } false 1000000 = .ok res)
    (h8 : v.mode &&& 8 = 0)
    (hpr : env.createProof stateCell = .ok p) :
    (((handleRunSmcMethod env v).snd.fst = HitTypeCache) ↔
        (cm = true ∧ cs = true ∧ cl = true)) ∧
    (((handleRunSmcMethod env v).snd.fst = HitTypeEmulated) ↔
        (cm = true ∧ cl = true ∧ cs = false)) ∧
    (((handleRunSmcMethod env v).snd.fst = HitTypeBackend) ↔
        ¬(cm = true ∧ cl = true)) := by
  have hrun : (handleRunSmcMethod env v).snd.fst =
      (if cm && cl then (if cs then HitTypeCache else HitTypeEmulated) else HitTypeBackend) := by
    by_cases h2 : v.mode &&& 2 = 0
    · simp [handleRunSmcMethod, Except.map, hm, ha, hst, hp, hl, he, h8, h2, hpr]
    · simp [handleRunSmcMethod, Except.map, hm, ha, hst, hp, hl, he, h8, h2, hpr]
  cases cm <;> cases cs <;> cases cl <;> rw [hrun] <;> decide

theorem runSmcMethod_hit_classification_witness :
    (((handleRunSmcMethod okEnv wRun0).snd.fst = HitTypeCache) ↔
        (true = true ∧ true = true ∧ true = true)) ∧
    (((handleRunSmcMethod okEnv wRun0).snd.fst = HitTypeEmulated) ↔
        (true = true ∧ true = true ∧ true = false)) ∧
    (((handleRunSmcMethod okEnv wRun0).snd.fst = HitTypeBackend) ↔
        ¬(true = true ∧ true = true)) :=
  runSmcMethod_hit_classification okEnv wRun0 wBlock true wAccState true wStateCell wParsed
    3 true wEmuRes wStateCell rfl rfl rfl rfl rfl rfl rfl rfl

/-- C8: a successful `RunSmcMethod` response is exactly
`RunMethodResult{mode = requested mode, id = requested master block id,
shard_block = state.shard, shard_proof = state.shard_proof,
proof = state.proof, init_c7 = nil, lib_extras = nil, exit_code and result
from the emulator}`, with `state_proof` the proof cell built over
`state.state` iff `mode & 2 ≠ 0` and nil otherwise. -/
theorem runSmcMethod_success_response_shape (env : Env) (v : RunSmcMethodQ)
    (block : MasterBlock) (cm : Bool) (state : AccountState) (cs : Bool)
    (stateCell : Cell) (st : ParsedAccount) (libs : LibDict) (cl : Bool)
    (res : EmulatorResult) (p : Cell)
    (hm : env.getMasterBlock v.id = .ok (block, cm))
    (ha : env.getAccountState block (newAddress 0 (byteOf v.account.workchain) v.account.id)
            = .ok (state, cs))
    (hst : state.state = some stateCell)
    (hp : env.parseAccount stateCell = .ok st)
    (hl : env.getLibraries (findLibs st.code) = .ok (libs, cl))
    (he : env.runGetMethod (int32of v.methodID)
            { code := st.code, data := st.data,
              address := newAddress 0 (byteOf v.account.workchain) v.account.id,
              stack := v.params, balance := st.balance, libs := libs,
              config := block.config, time := env.now } false 1000000 = .ok res)
    (h8 : v.mode &&& 8 = 0)
    (hpr : env.createProof stateCell = .ok p) :
    (handleRunSmcMethod env v).fst = .runMethodResult
      { mode := v.mode, id := v.id, shardBlock := state.shard,
        shardProof := state.shardProof, proof := state.proof,
        stateProof := if v.mode &&& 2 ≠ 0 then some p else none,
        initC7 := none, libExtras := none,
        exitCode := res.exitCode, result := res.stack } := by
  by_cases h2 : v.mode &&& 2 = 0
  · simp [handleRunSmcMethod, Except.map, hm, ha, hst, hp, hl, he, h8, h2, hpr]
  · simp [handleRunSmcMethod, Except.map, hm, ha, hst, hp, hl, he, h8, h2, hpr]

theorem runSmcMethod_success_response_shape_witness :
    (handleRunSmcMethod okEnv wRun2).fst = .runMethodResult
      { mode := wRun2.mode, id := wRun2.id, shardBlock := wAccState.shard,
        shardProof := wAccState.shardProof, proof := wAccState.proof,
        stateProof := if wRun2.mode &&& 2 ≠ 0 then some wStateCell else none,
        initC7 := none, libExtras := none,
        exitCode := wEmuRes.exitCode, result := wEmuRes.stack } :=
  runSmcMethod_success_response_shape okEnv wRun2 wBlock true wAccState true wStateCell
    wParsed 3 true wEmuRes wStateCell rfl rfl rfl rfl rfl rfl rfl rfl

/-- C3 (corrected): every handler forwards a dependency-resolution `LSError`
verbatim, at whichever dependency it occurs, but the hit class is not
uniformly `"failed_validate"`: the `GetMasterchainInfo` and
`GetMasterchainInfoExt` handlers record `"failed_internal"` for a forwarded
`LSError`, while `RunSmcMethod`, `GetBlockData`, `GetOneTransaction`,
`GetLibraries` and `GetAccountState` record `"failed_validate"`.  The
environments cover a failure at each dependency position: `env` fails at
every handler's first dependency, `env2` at the account-state resolution
(second dependency of `RunSmcMethod` and `GetAccountState`), and `env3` at
the library resolution (third dependency of `RunSmcMethod`). -/
theorem lsError_dep_forwarding_classified (env env2 env3 : Env) (e : LSError)
    (block2 : MasterBlock) (cm2 : Bool)
    (block3 : MasterBlock) (cm3 : Bool) (state3 : AccountState) (cs3 : Bool)
    (stateCell3 : Cell) (st3 : ParsedAccount)
    (hlast : env.getLastMasterBlock = .error (.ls e))
    (hmb : ∀ id, env.getMasterBlock id = .error (.ls e))
    (hblk : ∀ id, env.getBlock id = .error (.ls e))
    (htx : ∀ id acc lt, env.getTransaction id acc lt = .error (.ls e))
    (hlib : ∀ hs, env.getLibraries hs = .error (.ls e))
    (hmb2 : ∀ id, env2.getMasterBlock id = .ok (block2, cm2))
    (has2 : ∀ b a, env2.getAccountState b a = .error (.ls e))
    (hmb3 : ∀ id, env3.getMasterBlock id = .ok (block3, cm3))
    (has3 : ∀ b a, env3.getAccountState b a = .ok (state3, cs3))
    (hst3 : state3.state = some stateCell3)
    (hp3 : env3.parseAccount stateCell3 = .ok st3)
    (hlib3 : ∀ hs, env3.getLibraries hs = .error (.ls e))
    (vext : GetMasterchainInfoExtQ) (hmode : vext.mode = 0)
    (vrun : RunSmcMethodQ) (vblk : GetBlockDataQ) (vtx : GetOneTransactionQ)
    (vlib : GetLibrariesQ) (vacc : GetAccountStateQ) :
    handleGetMasterchainInfoExt env vext =
      (.lsError e, HitTypeFailedInternal, [.getLastMasterBlock]) ∧
    handleGetMasterchainInfo env = (.lsError e, HitTypeFailedInternal, [.getLastMasterBlock]) ∧
    handleRunSmcMethod env vrun = (.lsError e, HitTypeFailedValidate, [.getMasterBlock]) ∧
    handleGetBlock env vblk = (.lsError e, HitTypeFailedValidate, [.getBlock]) ∧
    handleGetTransaction env vtx = (.lsError e, HitTypeFailedValidate, [.getTransaction]) ∧
    handleGetLibraries env vlib = (.lsError e, HitTypeFailedValidate, [.getLibraries]) ∧
    handleGetAccount env vacc = (.lsError e, HitTypeFailedValidate, [.getMasterBlock]) ∧
    handleRunSmcMethod env2 vrun =
      (.lsError e, HitTypeFailedValidate, [.getMasterBlock, .getAccountState]) ∧
    handleGetAccount env2 vacc =
      (.lsError e, HitTypeFailedValidate, [.getMasterBlock, .getAccountState]) ∧
    handleRunSmcMethod env3 vrun =
      (.lsError e, HitTypeFailedValidate,
        [.getMasterBlock, .getAccountState, .getLibraries]) := by
  refine ⟨?_, ?_, ?_, ?_, ?_, ?_, ?_, ?_, ?_, ?_⟩ <;>
    simp [handleGetMasterchainInfoExt, handleGetMasterchainInfo, handleRunSmcMethod,
      handleGetBlock, handleGetTransaction, handleGetLibraries, handleGetAccount,
      hlast, hmb, hblk, htx, hlib, hmb2, has2, hmb3, has3, hst3, hp3, hlib3, hmode]

theorem lsError_dep_forwarding_classified_witness :
    handleGetMasterchainInfoExt (errEnv ⟨404, "block not found"⟩) ⟨0⟩ =
      (.lsError ⟨404, "block not found"⟩, HitTypeFailedInternal, [.getLastMasterBlock]) ∧
    handleRunSmcMethod (accErrEnv ⟨404, "block not found"⟩) wRun0 =
      (.lsError ⟨404, "block not found"⟩, HitTypeFailedValidate,
        [.getMasterBlock, .getAccountState]) ∧
    handleRunSmcMethod (libErrEnv ⟨404, "block not found"⟩) wRun0 =
      (.lsError ⟨404, "block not found"⟩, HitTypeFailedValidate,
        [.getMasterBlock, .getAccountState, .getLibraries]) := by
  have h := lsError_dep_forwarding_classified (errEnv ⟨404, "block not found"⟩)
    (accErrEnv ⟨404, "block not found"⟩) (libErrEnv ⟨404, "block not found"⟩)
    ⟨404, "block not found"⟩ wBlock true wBlock true wAccState true wStateCell wParsed
    rfl (fun _ => rfl) (fun _ => rfl) (fun _ _ _ => rfl) (fun _ => rfl)
    (fun _ => rfl) (fun _ _ => rfl) (fun _ => rfl) (fun _ _ => rfl) rfl rfl (fun _ => rfl)
    ⟨0⟩ rfl wRun0 ⟨wBlockID⟩ wTxQ ⟨[]⟩ ⟨wBlockID, wAccount⟩
  exact ⟨h.1, h.2.2.2.2.2.2.2.1, h.2.2.2.2.2.2.2.2.2⟩

/-- C3's counterexample: a `GetMasterchainInfoExt` query whose
`GetLastMasterBlock` resolution fails with `LSError{404, "block not found"}`
is answered with exactly that error, but the recorded hit class is
`"failed_internal"`, not `"failed_validate"` as the claim states. -/
theorem masterchainInfoExt_lsError_hit_counterexample :
    (handleGetMasterchainInfoExt (errEnv ⟨404, "block not found"⟩) ⟨0⟩).fst =
      .lsError ⟨404, "block not found"⟩ ∧
    (handleGetMasterchainInfoExt (errEnv ⟨404, "block not found"⟩) ⟨0⟩).snd.fst =
      HitTypeFailedInternal ∧
    (handleGetMasterchainInfoExt (errEnv ⟨404, "block not found"⟩) ⟨0⟩).snd.fst ≠
      HitTypeFailedValidate :=
  ⟨rfl, rfl, by decide⟩

/-- C5: for an admitted query (the server key is known) with an applicable
limiter whose bucket cannot supply the full cost of one token — whether the
per-IP collector or the per-key bucket — the answer is
`LSError{429, "too many requests"}` and nothing downstream runs: the event
trace is empty, so no dispatcher work, cache lookup or backend query
happened for the request. -/
theorem rate_limit_refusal_rejects_429 (cfgs : Configs) (k ip : String) (lim : KeyConfig)
    (env : Env) (op : Bool) (q : Query) (hk : cfgs k = some lim)
    (hrefuse :
      (∃ col, lim.limiterPerIP = some col ∧ (col.add ip 1).fst ≠ 1) ∨
      (∃ b, lim.limiterPerKey = some b ∧ (b.add 1).fst ≠ 1)) :
    (processQuery cfgs k ip env op q).fst = .lsError ⟨429, "too many requests"⟩ ∧
    (processQuery cfgs k ip env op q).snd.snd = [] := by
  have hfst : (handleLiteQuery cfgs k ip).fst = .reject ⟨429, "too many requests"⟩ := by
    rcases hrefuse with ⟨col, hip, hne⟩ | ⟨b, hb, hne⟩
    · simp [handleLiteQuery, hk, perIPCheck, hip, hne]
    · cases hip0 : lim.limiterPerIP with
      | none => simp [handleLiteQuery, hk, perIPCheck, perKeyCheck, hip0, hb, hne]
      | some col =>
        by_cases hg : (col.add ip 1).fst = 1
        · simp [handleLiteQuery, hk, perIPCheck, perKeyCheck, hip0, hg, hb, hne]
        · simp [handleLiteQuery, hk, perIPCheck, hip0, hg]
  have hq : handleLiteQuery cfgs k ip =
      (.reject ⟨429, "too many requests"⟩, (handleLiteQuery cfgs k ip).snd) := by
    rw [← hfst]
  constructor
  · unfold processQuery
    rw [hq]
  · unfold processQuery
    rw [hq]

def wFullCol : Collector := ⟨2, [("ip1", 2)]⟩

def wKeyCfg : KeyConfig := ⟨"t1", some wFullCol, some ⟨10, 0⟩⟩

def wCfgs : Configs := fun s => if s = "pk" then some wKeyCfg else none

theorem rate_limit_refusal_rejects_429_witness :
    (processQuery wCfgs "pk" "ip1" okEnv false .getVersion).fst =
      .lsError ⟨429, "too many requests"⟩ ∧
    (processQuery wCfgs "pk" "ip1" okEnv false .getVersion).snd.snd = [] :=
  rate_limit_refusal_rejects_429 wCfgs "pk" "ip1" wKeyCfg okEnv false .getVersion rfl
    (Or.inl ⟨wFullCol, rfl, by decide⟩)

/-- C10: the per-IP limiter is checked and debited before the per-key
limiter.  When the per-IP collector grants its token but the per-key bucket
refuses, the request is answered with `LSError{429, "too many requests"}`,
yet the stored limiter state carries the debited per-IP collector — its
bucket for this IP is one token fuller, not refunded — together with the
per-key bucket after its refused add. -/
theorem perIP_debited_before_perKey_refusal (cfgs : Configs) (k ip : String) (lim : KeyConfig)
    (col : Collector) (b : LeakyBucket)
    (hk : cfgs k = some lim) (hip : lim.limiterPerIP = some col)
    (hkey : lim.limiterPerKey = some b)
    (hgrant : (col.add ip 1).fst = 1) (hrefuse : (b.add 1).fst ≠ 1) :
    handleLiteQuery cfgs k ip =
      (.reject ⟨429, "too many requests"⟩,
        setConfig cfgs k
          { lim with limiterPerIP := some (col.add ip 1).snd,
                     limiterPerKey := some (b.add 1).snd }) ∧
    ((col.add ip 1).snd).levelOf ip = col.levelOf ip + 1 := by
  constructor
  · simp [handleLiteQuery, hk, perIPCheck, perKeyCheck, hip, hkey, hgrant, hrefuse]
  · have hmain : bucketTryAdd col.capacity (col.levelOf ip) 1 = (1, col.levelOf ip + 1) := by
      have hfst : (bucketTryAdd col.capacity (col.levelOf ip) 1).fst = 1 := by
        simpa [Collector.add] using hgrant
      by_cases h1 : col.capacity ≤ col.levelOf ip
      · simp [bucketTryAdd, h1] at hfst
      · have h2 : ¬(col.capacity - col.levelOf ip < 1) := by omega
        simp [bucketTryAdd, h1, h2]
    have hadd : col.add ip 1 =
        (1, { col with
                levels := (ip, col.levelOf ip + 1) ::
                  col.levels.filter (fun p => p.fst != ip) }) := by
      simp only [Collector.add]
      rw [hmain]
    rw [hadd]
    simp [Collector.levelOf, List.lookup]

def wOpenCol : Collector := ⟨5, []⟩

def wFullBucket : LeakyBucket := ⟨3, 3⟩

def wKeyCfg2 : KeyConfig := ⟨"t2", some wOpenCol, some wFullBucket⟩

def wCfgs2 : Configs := fun s => if s = "pk2" then some wKeyCfg2 else none

theorem perIP_debited_before_perKey_refusal_witness :
    handleLiteQuery wCfgs2 "pk2" "ip9" =
      (.reject ⟨429, "too many requests"⟩,
        setConfig wCfgs2 "pk2"
          { wKeyCfg2 with limiterPerIP := some (wOpenCol.add "ip9" 1).snd,
                          limiterPerKey := some (wFullBucket.add 1).snd }) ∧
    ((wOpenCol.add "ip9" 1).snd).levelOf "ip9" = wOpenCol.levelOf "ip9" + 1 :=
  perIP_debited_before_perKey_refusal wCfgs2 "pk2" "ip9" wKeyCfg2 wOpenCol wFullBucket rfl
    rfl rfl (by decide) (by decide)

end Liteproxy
